import Mathlib

/-!
Verification of the offline sale buffer and sync controller of the
SuperMarket point-of-sale application (`src/pages/Sales.tsx`).

The data model and the operations (`processSaleMutation.mutationFn`,
`syncOfflineSales`, `proceedToPayment`, `completeSale`) are translated from
`Sales.tsx`.  The durable buffer primitives (`saveSaleOffline`,
`getOfflineSales`, `deleteSyncedSale` from `@/utils/offlineUtils`) are not part
of the published sources, so they are modelled from the spec (section 4.1).

The component runs on a single-threaded, cooperative event loop; an episode
(one checkout, one sync pass, one trigger burst) is embedded as a pure state
transformer.  The outcome of the remote backend during an episode is an
explicit oracle (`RemoteEnv`).
-/

namespace SuperMarket

/-- Payment methods offered at checkout (`'cash' | 'online'` in `Sales.tsx`). -/
inductive PaymentMethod where
  | cash
  | online
  deriving DecidableEq, Repr

/-- One line entry of a bill (`BillItem` in `Sales.tsx`). -/
structure BillItem where
  id : String
  item_name : String
  cart_quantity : Nat
  unit_price : Int
  total_price : Int
  deriving DecidableEq, Repr

/-- Customer details (`Customer` in `Sales.tsx`). -/
structure Customer where
  name : String
  phone : String
  email : String
  address : String
  deriving DecidableEq, Repr

/-- Company information printed on bills (`CompanyInfo` in `Sales.tsx`). -/
structure CompanyInfo where
  name : String
  address : String
  phone : String
  email : String
  upi_id : String
  deriving DecidableEq, Repr

/-- The `defaultCompanyInfo` constant of `Sales.tsx`. -/
def defaultCompanyInfo : CompanyInfo :=
  { name := "Sri Lakshmi Supermarket"
    address := "#45, Main Road, V.V. Nagar, Mandya, Karnataka - 571401"
    phone := "+91 98765 43210"
    email := "contact@srilakshmisupermarket.com"
    upi_id := "srilakshmi-supermarket@okaxis" }

/-- A completed sale transaction (`BillData` in `Sales.tsx`, the
`SaleTransaction` of the spec).  `timestamp` is a client clock reading in
milliseconds. -/
structure BillData where
  billId : String
  items : List BillItem
  customer : Customer
  subtotal : Int
  finalAmount : Int
  notes : String
  timestamp : Nat
  companyInfo : CompanyInfo
  paymentMethod : PaymentMethod
  userId : String
  deriving DecidableEq, Repr

/-- The content of the offline sale buffer, in insertion order. -/
abbrev Buffer := List BillData

/-- Modelled from the spec: `save(transaction)` of the Offline Sale Buffer
(section 4.1) keys records by `billId` with overwrite semantics and a stable
insertion enumeration order. -/
def bufferSave (bill : BillData) (buf : Buffer) : Buffer :=
  if buf.any (fun b => b.billId = bill.billId) then
    buf.map (fun b => if b.billId = bill.billId then bill else b)
  else
    buf ++ [bill]

/-- Modelled from the spec: `remove(billId)` of the Offline Sale Buffer
(section 4.1) deletes exactly the record with that identifier and is a no-op
when the identifier is absent. -/
def bufferRemove (billId : String) (buf : Buffer) : Buffer :=
  buf.filter (fun b => b.billId ≠ billId)

/-- The durable local storage backing the buffer.  `available` models whether
the underlying browser storage is reachable. -/
structure Storage where
  available : Bool
  buffer : Buffer
  deriving DecidableEq, Repr

/-- Modelled from the spec: `saveSaleOffline` (the buffer `save`) inserts the
record into durable storage and fails loudly when the storage is unavailable
(section 4.1, failure semantics). -/
def saveSaleOffline (st : Storage) (bill : BillData) : Except String Storage :=
  if st.available then Except.ok { st with buffer := bufferSave bill st.buffer }
  else Except.error "storage unavailable"

/-- Modelled from the spec: `getOfflineSales` (the buffer `listPending`)
returns all buffered transactions without mutating state; it degrades to the
empty list when the storage is unavailable. -/
def getOfflineSales (st : Storage) : List BillData :=
  if st.available then st.buffer else []

/-- Modelled from the spec: `deleteSyncedSale` (the buffer `remove`) deletes
the record with the given `billId`; a no-op when absent or when the storage is
unavailable. -/
def deleteSyncedSale (billId : String) (st : Storage) : Storage :=
  if st.available then { st with buffer := bufferRemove billId st.buffer } else st

/-- Oracle for the remote backend during one episode: whether the `sales` row
insert succeeds for a given `billId`, and whether the `decrement_stock` RPC
succeeds for a given bill and line item. -/
structure RemoteEnv where
  insertOk : String → Bool
  decrementOk : String → String → Bool

/-- Outcome of one remote commit: whether the commit resolved (did not throw),
which line items had a stock decrement attempted, and the warnings logged for
failed decrements. -/
structure CommitOutcome where
  success : Bool
  attemptedDecrements : List String
  warnings : List String
  deriving DecidableEq, Repr

/-- `processSaleMutation.mutationFn` in `Sales.tsx`: insert the sales row,
throwing (`success := false`) if the insert fails; otherwise attempt
`decrement_stock` for every line item, logging a `console.warn` for each
failing decrement without failing the commit. -/
def processSale (env : RemoteEnv) (bill : BillData) : CommitOutcome :=
  if env.insertOk bill.billId then
    { success := true
      attemptedDecrements := bill.items.map (fun it => it.id)
      warnings :=
        (bill.items.filter (fun it => !env.decrementOk bill.billId it.id)).map
          (fun it => it.item_name) }
  else
    { success := false, attemptedDecrements := [], warnings := [] }

/-- The user-facing toast notifications raised by the flows modelled here. -/
inductive Toast where
  | syncing (count : Nat)
  | syncComplete (count : Nat)
  | saleSavedOffline
  | transactionFailed
  | emptyCart
  | customerInfoMissing
  deriving DecidableEq, Repr

/-- Whether a toast is the `Sync Complete` notification. -/
def Toast.isComplete : Toast → Bool
  | Toast.syncComplete _ => true
  | _ => false

/-- An inventory item as listed by the `adminInventory` query. -/
structure InventoryItem where
  id : String
  item_name : String
  category : String
  quantity : Nat
  unit_price : Int
  is_available : Bool
  deriving DecidableEq, Repr

/-- A cart entry (`CartItem extends InventoryItem` in `Sales.tsx`). -/
structure CartItem extends InventoryItem where
  cart_quantity : Nat
  deriving DecidableEq, Repr

/-- The three dialog flags of the `dialogs` state object. -/
structure Dialogs where
  payment : Bool
  success : Bool
  history : Bool
  deriving DecidableEq, Repr

/-- The state of the `Sales` component relevant to the offline buffer and the
checkout flow.  `user` is the authenticated user id, if any; `toasts`
accumulates the notifications raised so far. -/
structure SalesState where
  cart : List CartItem
  customer : Customer
  notes : String
  activeTab : String
  dialogs : Dialogs
  completedBill : Option BillData
  paymentBillId : String
  isOffline : Bool
  isSyncing : Bool
  pendingSaleCount : Nat
  storage : Storage
  user : Option String
  toasts : List Toast
  deriving DecidableEq, Repr

/-- `cartTotals.subtotal` in `Sales.tsx`: the sum of line totals of the cart. -/
def cartSubtotal (cart : List CartItem) : Int :=
  (cart.map (fun i => (i.cart_quantity : Int) * i.unit_price)).sum

/-- The client-generated bill identifier assigned by `proceedToPayment`:
the template string `INV-${Date.now()}`. -/
def mkBillId (now : Nat) : String :=
  "INV-" ++ toString now

/-- `proceedToPayment` in `Sales.tsx`: reject an empty cart or a missing
customer phone; otherwise assign `paymentBillId` from the clock and open the
payment dialog. -/
def proceedToPayment (s : SalesState) (now : Nat) : SalesState :=
  if s.cart.isEmpty then
    { s with toasts := s.toasts ++ [Toast.emptyCart] }
  else if s.customer.phone = "" then
    { s with toasts := s.toasts ++ [Toast.customerInfoMissing], activeTab := "customer" }
  else
    { s with paymentBillId := mkBillId now
             dialogs := { s.dialogs with payment := true } }

/-- The `billData` object constructed at the top of `completeSale`: the billId
is the previously assigned `paymentBillId`; items, customer, totals and notes
are snapshots of the current component state. -/
def mkBillData (s : SalesState) (pm : PaymentMethod) (now : Nat) : BillData :=
  { billId := s.paymentBillId
    items := s.cart.map (fun item =>
      { id := item.id
        item_name := item.item_name
        cart_quantity := item.cart_quantity
        unit_price := item.unit_price
        total_price := (item.cart_quantity : Int) * item.unit_price })
    customer :=
      { s.customer with
          name := if s.customer.name = "" then "Walk-in Customer" else s.customer.name }
    subtotal := cartSubtotal s.cart
    finalAmount := cartSubtotal s.cart
    notes := s.notes
    timestamp := now
    companyInfo := defaultCompanyInfo
    paymentMethod := pm
    userId := s.user.getD "" }

/-- Result of one `completeSale` call: the new component state plus, when the
offline save throws, the rejection that escapes the (un-guarded) async
function. -/
structure CompleteSaleResult where
  state : SalesState
  unhandledError : Option String
  deriving DecidableEq, Repr

/-- `completeSale` in `Sales.tsx`.  The success dialog is opened and
`completedBill` is set before any persistence is attempted.  Offline, the sale
is written to the local buffer; this `await saveSaleOffline(billData)` is not
wrapped in try/catch, so a storage failure escapes the function with no
further state update.  Online, the remote commit is awaited; on failure a
destructive toast is raised and `setDialogs({ ...dialogs, success: false })`
runs over the stale render-time `dialogs` value. -/
def completeSale (env : RemoteEnv) (s : SalesState) (pm : PaymentMethod)
    (now : Nat) : CompleteSaleResult :=
  let billData := mkBillData s pm now
  let s1 := { s with
      completedBill := some billData
      dialogs := { payment := false, success := true, history := false } }
  if s.isOffline then
    match saveSaleOffline s.storage billData with
    | Except.ok st =>
        { state := { s1 with
            storage := st
            pendingSaleCount := s1.pendingSaleCount + 1
            toasts := s1.toasts ++ [Toast.saleSavedOffline] }
          unhandledError := none }
    | Except.error e =>
        { state := s1, unhandledError := some e }
  else
    if (processSale env billData).success then
      { state := s1, unhandledError := none }
    else
      { state := { s1 with
          toasts := s1.toasts ++ [Toast.transactionFailed]
          dialogs := { s.dialogs with success := false } }
        unhandledError := none }

/-- Record of the remote interactions and notifications of one sync pass:
`attempts` are the billIds passed to `processSaleMutation.mutateAsync` in
order, `committed` those whose sales-row insert succeeded, `deleted` those
passed to `deleteSyncedSale`. -/
structure SyncLog where
  attempts : List String
  committed : List String
  deleted : List String
  toasts : List Toast
  deriving DecidableEq, Repr

/-- The log of a trigger that performed no remote interaction. -/
def SyncLog.empty : SyncLog :=
  { attempts := [], committed := [], deleted := [], toasts := [] }

/-- Interior state of the `for (const billData of pendingSales)` loop of
`syncOfflineSales`. -/
structure LoopState where
  storage : Storage
  successCount : Nat
  attempts : List String
  committed : List String
  deleted : List String
  deriving DecidableEq, Repr

/-- One iteration of the sync loop: commit the record; on success delete it
from the buffer and count the success; on failure only log and continue. -/
def syncStep (env : RemoteEnv) (st : LoopState) (bill : BillData) : LoopState :=
  if (processSale env bill).success then
    { storage := deleteSyncedSale bill.billId st.storage
      successCount := st.successCount + 1
      attempts := st.attempts ++ [bill.billId]
      committed := st.committed ++ [bill.billId]
      deleted := st.deleted ++ [bill.billId] }
  else
    { st with attempts := st.attempts ++ [bill.billId] }

/-- Loop state at the start of a pass. -/
def initLoopState (st : Storage) : LoopState :=
  { storage := st, successCount := 0, attempts := [], committed := [], deleted := [] }

/-- Fold records saved by concurrent `completeSale` events into the storage;
a save whose storage write fails leaves the buffer unchanged (the rejection is
handled in that event, not in the sync pass). -/
def applyMidSaves (st : Storage) (midSaves : List BillData) : Storage :=
  midSaves.foldl
    (fun st b => match saveSaleOffline st b with
      | Except.ok st2 => st2
      | Except.error _ => st)
    st

/-- `syncOfflineSales` in `Sales.tsx`, run as one episode.  The guard returns
at once while a pass is in flight or no user is authenticated.  Otherwise the
pending snapshot is read once; an empty snapshot only refreshes the pending
count.  A non-empty snapshot is drained strictly sequentially; afterwards the
pending count is re-queried from the buffer.  `midSaves` are the records
written to the buffer by concurrent checkouts during the pass's await points
(after the snapshot is read and before the final re-query); in the guard and
empty branches no such window exists and the parameter is unused. -/
def syncOfflineSales (env : RemoteEnv) (midSaves : List BillData)
    (s : SalesState) : SalesState × SyncLog :=
  if s.isSyncing || s.user.isNone then (s, SyncLog.empty)
  else
    let pendingSales := getOfflineSales s.storage
    if pendingSales.isEmpty then
      ({ s with isSyncing := false, pendingSaleCount := pendingSales.length },
       SyncLog.empty)
    else
      let res := pendingSales.foldl (syncStep env) (initLoopState s.storage)
      let storage2 := applyMidSaves res.storage midSaves
      let remaining := getOfflineSales storage2
      let passToasts := Toast.syncing pendingSales.length ::
        (if res.successCount > 0 then [Toast.syncComplete res.successCount] else [])
      ({ s with isSyncing := false
                storage := storage2
                pendingSaleCount := remaining.length
                toasts := s.toasts ++ passToasts },
       { attempts := res.attempts, committed := res.committed,
         deleted := res.deleted, toasts := passToasts })

/-- Two `online` triggers in rapid succession.  The first trigger passes the
guard and sets the in-flight flag synchronously before its first await; the
second trigger therefore observes `isSyncing = true`.  The burst result is the
first pass's final state together with both triggers' logs. -/
def syncBurst (env : RemoteEnv) (s : SalesState) :
    SalesState × SyncLog × SyncLog :=
  let second := syncOfflineSales env [] { s with isSyncing := true }
  let first := syncOfflineSales env [] s
  (first.1, first.2, second.2)

/-- A sequence of sync passes, one per remote-environment oracle, with no
concurrent checkouts between or during the passes. -/
def runPasses (envs : List RemoteEnv) (s : SalesState) :
    SalesState × List SyncLog :=
  match envs with
  | [] => (s, [])
  | e :: rest =>
      let r := syncOfflineSales e [] s
      let r2 := runPasses rest r.1
      (r2.1, r.2 :: r2.2)

/-- The billIds of the records of `xs` whose sales-row insert succeeds under
`env`, in enumeration order: exactly the ids a sync pass over snapshot `xs`
commits and deletes. -/
def successIds (env : RemoteEnv) (xs : List BillData) : List String :=
  (xs.filter (fun b => env.insertOk b.billId)).map (fun b => b.billId)

/-- Remove from a buffer every record whose billId is in `ids`. -/
def purge (ids : List String) (buf : Buffer) : Buffer :=
  buf.filter (fun b => b.billId ∉ ids)

/-- `purge` lifted to storage: a no-op when the storage is unavailable, as
`deleteSyncedSale` is. -/
def purgeStorage (ids : List String) (st : Storage) : Storage :=
  if st.available then { st with buffer := purge ids st.buffer } else st

/-- Decimal decoder used to invert `Nat.repr`: fold the digit characters. -/
def decodeDigits (cs : List Char) : Nat :=
  cs.foldl (fun acc c => 10 * acc + (c.toNat - 48)) 0

/-- Concrete line item used in the concrete scenarios below. -/
def itemRice : BillItem :=
  { id := "it-rice", item_name := "Rice", cart_quantity := 2,
    unit_price := 50, total_price := 100 }

/-- Concrete customer used in the concrete scenarios below. -/
def custA : Customer :=
  { name := "Anita", phone := "9000000001", email := "", address := "" }

/-- A concrete offline sale record with the given billId. -/
def sampleBill (bid : String) : BillData :=
  { billId := bid, items := [itemRice], customer := custA,
    subtotal := 100, finalAmount := 100, notes := "", timestamp := 1000,
    companyInfo := defaultCompanyInfo, paymentMethod := PaymentMethod.cash,
    userId := "user-1" }

/-- A remote environment where every insert and every decrement succeeds. -/
def envAllOk : RemoteEnv :=
  { insertOk := fun _ => true, decrementOk := fun _ _ => true }

/-- A remote environment where exactly the record `INV-2` fails its sales-row
insert, and all stock decrements succeed. -/
def envFail2 : RemoteEnv :=
  { insertOk := fun bid => !(bid == "INV-2"), decrementOk := fun _ _ => true }

/-- A remote environment where every sales-row insert fails. -/
def envAllFail : RemoteEnv :=
  { insertOk := fun _ => false, decrementOk := fun _ _ => true }

/-- A baseline component state: cart holds one item, customer filled in,
online, idle, empty buffer, a logged-in user, no notifications yet. -/
def baseState : SalesState :=
  { cart := [{ id := "it-rice", item_name := "Rice", category := "Grains",
               quantity := 10, unit_price := 50, is_available := true,
               cart_quantity := 2 }]
    customer := custA
    notes := ""
    activeTab := "cart"
    dialogs := { payment := true, success := false, history := false }
    completedBill := none
    paymentBillId := "INV-1000"
    isOffline := false
    isSyncing := false
    pendingSaleCount := 0
    storage := { available := true, buffer := [] }
    user := some "user-1"
    toasts := [] }

/-- Concrete state for the three-record partial-batch scenario: three pending
offline sales `INV-1`, `INV-2`, `INV-3`. -/
def threePendingState : SalesState :=
  { baseState with
      pendingSaleCount := 3
      storage := { available := true,
                   buffer := [sampleBill "INV-1", sampleBill "INV-2", sampleBill "INV-3"] } }

/-- Concrete offline state whose local storage is unavailable, so that the
durable save of a checkout fails. -/
def brokenStorageState : SalesState :=
  { baseState with
      isOffline := true
      storage := { available := false, buffer := [] } }

/-- A second checkout state, distinct from `baseState` (different customer and
cart quantity), used to exhibit a billId collision between two distinct
checkouts created in the same millisecond. -/
def otherCheckoutState : SalesState :=
  { baseState with
      cart := [{ id := "it-dal", item_name := "Dal", category := "Grains",
                 quantity := 5, unit_price := 80, is_available := true,
                 cart_quantity := 1 }]
      customer := { name := "Bharat", phone := "9000000002", email := "", address := "" }
      dialogs := { payment := false, success := false, history := false } }

/-! ### Characterization of the sync loop -/

theorem processSale_success (env : RemoteEnv) (b : BillData) :
    (processSale env b).success = env.insertOk b.billId := by
  unfold processSale
  by_cases h : env.insertOk b.billId <;> simp [h]

theorem purgeStorage_nil (st : Storage) : purgeStorage [] st = st := by
  obtain ⟨av, buf⟩ := st
  unfold purgeStorage purge
  cases av <;> simp

theorem deleteSyncedSale_eq (bid : String) (st : Storage) :
    deleteSyncedSale bid st = purgeStorage [bid] st := by
  obtain ⟨av, buf⟩ := st
  unfold deleteSyncedSale purgeStorage bufferRemove purge
  cases av <;> simp

theorem purgeStorage_append (ids1 ids2 : List String) (st : Storage) :
    purgeStorage ids2 (purgeStorage ids1 st) = purgeStorage (ids1 ++ ids2) st := by
  obtain ⟨av, buf⟩ := st
  unfold purgeStorage purge
  cases av
  · simp
  · simp only [if_true, List.filter_filter]
    congr 1
    apply List.filter_congr
    intro b _
    by_cases h1 : b.billId ∈ ids1 <;> by_cases h2 : b.billId ∈ ids2 <;>
      simp [h1, h2, List.mem_append]

theorem successIds_nil (env : RemoteEnv) : successIds env [] = [] := rfl

theorem successIds_cons (env : RemoteEnv) (x : BillData) (xs : List BillData) :
    successIds env (x :: xs) =
      if env.insertOk x.billId then x.billId :: successIds env xs
      else successIds env xs := by
  unfold successIds
  by_cases h : env.insertOk x.billId <;> simp [h]

theorem foldl_syncStep_eq (env : RemoteEnv) (xs : List BillData) :
    ∀ st : LoopState,
      xs.foldl (syncStep env) st =
        { storage := purgeStorage (successIds env xs) st.storage
          successCount := st.successCount + (successIds env xs).length
          attempts := st.attempts ++ xs.map (fun b => b.billId)
          committed := st.committed ++ successIds env xs
          deleted := st.deleted ++ successIds env xs } := by
  induction xs with
  | nil =>
      intro st
      simp [successIds_nil, purgeStorage_nil]
  | cons x xs ih =>
      intro st
      simp only [List.foldl_cons]
      rw [ih]
      by_cases h : env.insertOk x.billId
      · have hs : syncStep env st x =
            { storage := deleteSyncedSale x.billId st.storage
              successCount := st.successCount + 1
              attempts := st.attempts ++ [x.billId]
              committed := st.committed ++ [x.billId]
              deleted := st.deleted ++ [x.billId] } := by
          unfold syncStep
          simp [processSale_success, h]
        rw [hs]
        simp only [successIds_cons, h, if_true]
        rw [deleteSyncedSale_eq, purgeStorage_append]
        simp [List.append_assoc]
        omega
      · have hs : syncStep env st x = { st with attempts := st.attempts ++ [x.billId] } := by
          unfold syncStep
          simp [processSale_success, h]
        rw [hs]
        simp [successIds_cons, h, List.append_assoc]

/-- Uniform characterization of one guard-open sync pass with no concurrent
saves: the final buffer is the start-of-pass snapshot purged of exactly the
committed billIds; the log lists the attempts in snapshot enumeration order;
at most one `Sync Complete` toast is raised, and only when some record
committed; the pending count equals the re-queried buffer length. -/
theorem pass_spec (env : RemoteEnv) (s : SalesState)
    (hs : s.isSyncing = false) (hu : s.user.isSome = true)
    (hav : s.storage.available = true) :
    (syncOfflineSales env [] s).1.storage.available = true
  ∧ (syncOfflineSales env [] s).1.storage.buffer
      = purge (successIds env s.storage.buffer) s.storage.buffer
  ∧ (syncOfflineSales env [] s).1.user = s.user
  ∧ (syncOfflineSales env [] s).1.isSyncing = false
  ∧ (syncOfflineSales env [] s).2.attempts = s.storage.buffer.map (fun b => b.billId)
  ∧ (syncOfflineSales env [] s).2.committed = successIds env s.storage.buffer
  ∧ (syncOfflineSales env [] s).2.deleted = successIds env s.storage.buffer
  ∧ (syncOfflineSales env [] s).2.toasts.countP Toast.isComplete
      = (if 0 < (successIds env s.storage.buffer).length then 1 else 0)
  ∧ (syncOfflineSales env [] s).1.pendingSaleCount
      = (syncOfflineSales env [] s).1.storage.buffer.length := by
  obtain ⟨u, hu2⟩ := Option.isSome_iff_exists.mp hu
  unfold syncOfflineSales
  simp only [hs, hu2, Option.isNone_some, Bool.or_self, Bool.false_eq_true,
    if_false, getOfflineSales, hav, if_true]
  by_cases he : s.storage.buffer.isEmpty
  · have hb : s.storage.buffer = [] := List.isEmpty_iff.mp he
    simp [he, hb, SyncLog.empty, purge, hav, successIds_nil]
  · simp only [he, if_false]
    rw [foldl_syncStep_eq]
    simp only [initLoopState, purgeStorage, hav, if_true, applyMidSaves,
      List.foldl_nil, getOfflineSales, List.nil_append, Nat.zero_add]
    refine ⟨rfl, rfl, rfl, rfl, rfl, rfl, rfl, ?_, rfl⟩
    by_cases hp : 0 < (successIds env s.storage.buffer).length
    · simp [hp, List.countP_cons, Toast.isComplete, Nat.pos_iff_ne_zero]
    · simp [hp, List.countP_cons, Toast.isComplete, Nat.pos_iff_ne_zero]

theorem mem_purge (ids : List String) (buf : Buffer) (b : BillData) :
    b ∈ purge ids buf ↔ b ∈ buf ∧ b.billId ∉ ids := by
  unfold purge
  simp [List.mem_filter]

theorem map_billId_purge_sublist (ids : List String) (buf : Buffer) :
    ((purge ids buf).map (fun b => b.billId)).Sublist
      (buf.map (fun b => b.billId)) := by
  unfold purge
  exact (List.filter_sublist buf).map _

theorem successIds_sublist (env : RemoteEnv) (xs : List BillData) :
    (successIds env xs).Sublist (xs.map (fun b => b.billId)) := by
  unfold successIds
  exact (List.filter_sublist xs).map _

theorem not_mem_successIds (env : RemoteEnv) (xs : List BillData) (bid : String)
    (h : env.insertOk bid = false) : bid ∉ successIds env xs := by
  unfold successIds
  intro hmem
  simp only [List.mem_map, List.mem_filter] at hmem
  obtain ⟨x, ⟨_, hins⟩, heq⟩ := hmem
  rw [heq] at hins
  simp [h] at hins

theorem mem_successIds (env : RemoteEnv) (xs : List BillData) (b : BillData)
    (hb : b ∈ xs) (h : env.insertOk b.billId = true) :
    b.billId ∈ successIds env xs := by
  unfold successIds
  exact List.mem_map_of_mem _ (List.mem_filter.mpr ⟨hb, h⟩)

/-- A record absent from the buffer is never committed, deleted or
re-introduced by a guard-open pass, whose state invariants are preserved. -/
theorem pass_absent (env : RemoteEnv) (s : SalesState) (bid : String)
    (hs : s.isSyncing = false) (hu : s.user.isSome = true)
    (hav : s.storage.available = true)
    (habs : bid ∉ s.storage.buffer.map (fun b => b.billId)) :
    bid ∉ (syncOfflineSales env [] s).2.committed
  ∧ bid ∉ (syncOfflineSales env [] s).2.deleted
  ∧ bid ∉ (syncOfflineSales env [] s).1.storage.buffer.map (fun b => b.billId) := by
  obtain ⟨hav1, hbuf, huser, hsync, hatt, hcom, hdel, htoast, hpend⟩ :=
    pass_spec env s hs hu hav
  refine ⟨?_, ?_, ?_⟩
  · rw [hcom]
    exact fun h => habs ((successIds_sublist env _).subset h)
  · rw [hdel]
    exact fun h => habs ((successIds_sublist env _).subset h)
  · rw [hbuf]
    exact fun h => habs ((map_billId_purge_sublist _ _).subset h)

/-- A pending record whose sales-row insert fails is neither committed nor
deleted by the pass and stays in the buffer. -/
theorem pass_failed_mem (env : RemoteEnv) (s : SalesState) (b : BillData)
    (hs : s.isSyncing = false) (hu : s.user.isSome = true)
    (hav : s.storage.available = true)
    (hb : b ∈ s.storage.buffer)
    (hfail : env.insertOk b.billId = false) :
    b ∈ (syncOfflineSales env [] s).1.storage.buffer
  ∧ b.billId ∉ (syncOfflineSales env [] s).2.committed
  ∧ b.billId ∉ (syncOfflineSales env [] s).2.deleted := by
  obtain ⟨hav1, hbuf, huser, hsync, hatt, hcom, hdel, htoast, hpend⟩ :=
    pass_spec env s hs hu hav
  have hnot := not_mem_successIds env s.storage.buffer b.billId hfail
  refine ⟨?_, ?_, ?_⟩
  · rw [hbuf]
    exact (mem_purge _ _ _).mpr ⟨hb, hnot⟩
  · rw [hcom]; exact hnot
  · rw [hdel]; exact hnot

/-- A pending record whose sales-row insert succeeds is committed and deleted
exactly once by the pass, leaves the buffer, and the pass raises exactly one
`Sync Complete` notification. -/
theorem pass_success (env : RemoteEnv) (s : SalesState) (b : BillData)
    (hs : s.isSyncing = false) (hu : s.user.isSome = true)
    (hav : s.storage.available = true)
    (hb : b ∈ s.storage.buffer)
    (hnd : (s.storage.buffer.map (fun x => x.billId)).Nodup)
    (hins : env.insertOk b.billId = true) :
    (syncOfflineSales env [] s).2.committed.count b.billId = 1
  ∧ (syncOfflineSales env [] s).2.deleted.count b.billId = 1
  ∧ b.billId ∉ (syncOfflineSales env [] s).1.storage.buffer.map (fun x => x.billId)
  ∧ (syncOfflineSales env [] s).2.toasts.countP Toast.isComplete = 1 := by
  obtain ⟨hav1, hbuf, huser, hsync, hatt, hcom, hdel, htoast, hpend⟩ :=
    pass_spec env s hs hu hav
  have hmem : b.billId ∈ successIds env s.storage.buffer :=
    mem_successIds env _ b hb hins
  have hndc : (successIds env s.storage.buffer).Nodup :=
    (successIds_sublist env _).nodup hnd
  have hcount : (successIds env s.storage.buffer).count b.billId = 1 :=
    List.count_eq_one_of_mem hndc hmem
  refine ⟨by rw [hcom]; exact hcount, by rw [hdel]; exact hcount, ?_, ?_⟩
  · rw [hbuf]
    intro h
    obtain ⟨x, hx, hxeq⟩ := List.mem_map.mp h
    exact ((mem_purge _ _ _).mp hx).2 (hxeq ▸ hmem)
  · rw [htoast]
    simp [List.length_pos_iff_ne_nil, List.ne_nil_of_mem hmem]

theorem runPasses_append (as bs : List RemoteEnv) (s : SalesState) :
    runPasses (as ++ bs) s =
      ((runPasses bs (runPasses as s).1).1,
       (runPasses as s).2 ++ (runPasses bs (runPasses as s).1).2) := by
  induction as generalizing s with
  | nil => simp [runPasses]
  | cons e rest ih => simp [runPasses, ih]

/-- Over any sequence of passes with no interleaved checkouts, a billId absent
from the buffer is never committed or deleted and stays absent; the controller
invariants are preserved. -/
theorem runPasses_absent (envs : List RemoteEnv) :
    ∀ (s : SalesState) (bid : String),
      s.isSyncing = false → s.user.isSome = true → s.storage.available = true →
      bid ∉ s.storage.buffer.map (fun b => b.billId) →
      (∀ L ∈ (runPasses envs s).2, bid ∉ L.committed ∧ bid ∉ L.deleted)
    ∧ bid ∉ (runPasses envs s).1.storage.buffer.map (fun b => b.billId)
    ∧ (runPasses envs s).1.isSyncing = false
    ∧ (runPasses envs s).1.user.isSome = true
    ∧ (runPasses envs s).1.storage.available = true := by
  induction envs with
  | nil =>
      intro s bid hs hu hav habs
      exact ⟨by simp [runPasses], habs, hs, hu, hav⟩
  | cons e rest ih =>
      intro s bid hs hu hav habs
      obtain ⟨hav1, hbuf, huser, hsync, hatt, hcom, hdel, htoast, hpend⟩ :=
        pass_spec e s hs hu hav
      obtain ⟨hc1, hd1, habs1⟩ := pass_absent e s bid hs hu hav habs
      have hu1 : (syncOfflineSales e [] s).1.user.isSome = true := by
        rw [huser]; exact hu
      obtain ⟨hlog, habs2, hs2, hu2, hav2⟩ :=
        ih (syncOfflineSales e [] s).1 bid hsync hu1 hav1 habs1
      refine ⟨?_, ?_, ?_, ?_, ?_⟩
      · intro L hL
        simp only [runPasses, List.mem_cons] at hL
        rcases hL with hL | hL
        · exact ⟨hL ▸ hc1, hL ▸ hd1⟩
        · exact hlog L hL
      · simpa [runPasses] using habs2
      · simpa [runPasses] using hs2
      · simpa [runPasses] using hu2
      · simpa [runPasses] using hav2

/-- Over any sequence of passes in which the record's sales-row insert always
fails, the record is never committed or deleted, remains in the buffer, and
the billId-uniqueness of the buffer and the controller invariants are
preserved. -/
theorem runPasses_pending (envs : List RemoteEnv) :
    ∀ (s : SalesState) (b : BillData),
      s.isSyncing = false → s.user.isSome = true → s.storage.available = true →
      b ∈ s.storage.buffer →
      (s.storage.buffer.map (fun x => x.billId)).Nodup →
      (∀ e ∈ envs, e.insertOk b.billId = false) →
      (∀ L ∈ (runPasses envs s).2, b.billId ∉ L.committed ∧ b.billId ∉ L.deleted)
    ∧ b ∈ (runPasses envs s).1.storage.buffer
    ∧ ((runPasses envs s).1.storage.buffer.map (fun x => x.billId)).Nodup
    ∧ (runPasses envs s).1.isSyncing = false
    ∧ (runPasses envs s).1.user.isSome = true
    ∧ (runPasses envs s).1.storage.available = true := by
  induction envs with
  | nil =>
      intro s b hs hu hav hb hnd _
      exact ⟨by simp [runPasses], hb, hnd, hs, hu, hav⟩
  | cons e rest ih =>
      intro s b hs hu hav hb hnd hfail
      obtain ⟨hav1, hbuf, huser, hsync, hatt, hcom, hdel, htoast, hpend⟩ :=
        pass_spec e s hs hu hav
      obtain ⟨hb1, hc1, hd1⟩ :=
        pass_failed_mem e s b hs hu hav hb (hfail e (List.mem_cons_self e rest))
      have hu1 : (syncOfflineSales e [] s).1.user.isSome = true := by
        rw [huser]; exact hu
      have hnd1 : ((syncOfflineSales e [] s).1.storage.buffer.map
          (fun x => x.billId)).Nodup := by
        rw [hbuf]
        exact (map_billId_purge_sublist _ _).nodup hnd
      obtain ⟨hlog, hb2, hnd2, hs2, hu2, hav2⟩ :=
        ih (syncOfflineSales e [] s).1 b hsync hu1 hav1 hb1 hnd1
          (fun e2 he2 => hfail e2 (List.mem_cons_of_mem e he2))
      refine ⟨?_, ?_, ?_, ?_, ?_, ?_⟩
      · intro L hL
        simp only [runPasses, List.mem_cons] at hL
        rcases hL with hL | hL
        · exact ⟨hL ▸ hc1, hL ▸ hd1⟩
        · exact hlog L hL
      · simpa [runPasses] using hb2
      · simpa [runPasses] using hnd2
      · simpa [runPasses] using hs2
      · simpa [runPasses] using hu2
      · simpa [runPasses] using hav2

/-! ### Claim theorems -/

/-- C1: a buffered offline sale whose remote commit fails transiently for
finitely many sync passes and then succeeds is committed to the remote store
exactly once across all passes, removed from the buffer exactly once via
`deleteSyncedSale` on its billId, is no longer in the buffer afterwards,
succeeds in exactly one pass, and the pass in which it succeeds raises exactly
one `Sync Complete` notification. -/
theorem offline_sale_at_least_once
    (failEnvs laterEnvs : List RemoteEnv) (succEnv : RemoteEnv)
    (s : SalesState) (b : BillData)
    (hs : s.isSyncing = false) (hu : s.user.isSome = true)
    (hav : s.storage.available = true)
    (hb : b ∈ s.storage.buffer)
    (hnd : (s.storage.buffer.map (fun x => x.billId)).Nodup)
    (hfail : ∀ e ∈ failEnvs, e.insertOk b.billId = false)
    (hsucc : succEnv.insertOk b.billId = true) :
    ((runPasses (failEnvs ++ succEnv :: laterEnvs) s).2.map
        (fun L => L.committed.count b.billId)).sum = 1
  ∧ ((runPasses (failEnvs ++ succEnv :: laterEnvs) s).2.map
        (fun L => L.deleted.count b.billId)).sum = 1
  ∧ b.billId ∉ (runPasses (failEnvs ++ succEnv :: laterEnvs) s).1.storage.buffer.map
        (fun x => x.billId)
  ∧ (runPasses (failEnvs ++ succEnv :: laterEnvs) s).2.countP
        (fun L => decide (b.billId ∈ L.committed)) = 1
  ∧ ∀ L ∈ (runPasses (failEnvs ++ succEnv :: laterEnvs) s).2,
      b.billId ∈ L.committed → L.toasts.countP Toast.isComplete = 1 := by
  obtain ⟨hlog1, hb1, hnd1, hs1, hu1, hav1⟩ :=
    runPasses_pending failEnvs s b hs hu hav hb hnd hfail
  obtain ⟨hcnt, hdcnt, habs2, htoast1⟩ :=
    pass_success succEnv (runPasses failEnvs s).1 b hs1 hu1 hav1 hb1 hnd1 hsucc
  obtain ⟨hav2, hbuf2, huser2, hsync2, _, _, _, _, _⟩ :=
    pass_spec succEnv (runPasses failEnvs s).1 hs1 hu1 hav1
  have hu2 : (syncOfflineSales succEnv [] (runPasses failEnvs s).1).1.user.isSome
      = true := by
    rw [huser2]; exact hu1
  obtain ⟨hlog3, habs3, hs3, hu3, hav3⟩ :=
    runPasses_absent laterEnvs
      (syncOfflineSales succEnv [] (runPasses failEnvs s).1).1 b.billId
      hsync2 hu2 hav2 habs2
  have hsplit : runPasses (failEnvs ++ succEnv :: laterEnvs) s =
      ((runPasses laterEnvs
          (syncOfflineSales succEnv [] (runPasses failEnvs s).1).1).1,
       (runPasses failEnvs s).2 ++
         (syncOfflineSales succEnv [] (runPasses failEnvs s).1).2 ::
           (runPasses laterEnvs
             (syncOfflineSales succEnv [] (runPasses failEnvs s).1).1).2) := by
    rw [runPasses_append]
    simp [runPasses]
  rw [hsplit]
  have hz1 : (((runPasses failEnvs s).2).map
      (fun L => L.committed.count b.billId)).sum = 0 := by
    apply List.sum_eq_zero
    intro x hx
    obtain ⟨L, hL, hLx⟩ := List.mem_map.mp hx
    rw [← hLx]
    exact List.count_eq_zero.mpr (hlog1 L hL).1
  have hz1d : (((runPasses failEnvs s).2).map
      (fun L => L.deleted.count b.billId)).sum = 0 := by
    apply List.sum_eq_zero
    intro x hx
    obtain ⟨L, hL, hLx⟩ := List.mem_map.mp hx
    rw [← hLx]
    exact List.count_eq_zero.mpr (hlog1 L hL).2
  have hz3 : (((runPasses laterEnvs
      (syncOfflineSales succEnv [] (runPasses failEnvs s).1).1).2).map
      (fun L => L.committed.count b.billId)).sum = 0 := by
    apply List.sum_eq_zero
    intro x hx
    obtain ⟨L, hL, hLx⟩ := List.mem_map.mp hx
    rw [← hLx]
    exact List.count_eq_zero.mpr (hlog3 L hL).1
  have hz3d : (((runPasses laterEnvs
      (syncOfflineSales succEnv [] (runPasses failEnvs s).1).1).2).map
      (fun L => L.deleted.count b.billId)).sum = 0 := by
    apply List.sum_eq_zero
    intro x hx
    obtain ⟨L, hL, hLx⟩ := List.mem_map.mp hx
    rw [← hLx]
    exact List.count_eq_zero.mpr (hlog3 L hL).2
  refine ⟨?_, ?_, habs3, ?_, ?_⟩
  · simp [List.map_append, List.sum_append, hz1, hz3, hcnt]
  · simp [List.map_append, List.sum_append, hz1d, hz3d, hdcnt]
  · have hmem : b.billId ∈
        (syncOfflineSales succEnv [] (runPasses failEnvs s).1).2.committed := by
      rw [← List.count_pos_iff, hcnt]
      exact Nat.one_pos
    rw [List.countP_append, List.countP_cons]
    have hc1 : ((runPasses failEnvs s).2).countP
        (fun L => decide (b.billId ∈ L.committed)) = 0 := by
      rw [List.countP_eq_zero]
      intro L hL
      simp [(hlog1 L hL).1]
    have hc3 : ((runPasses laterEnvs
        (syncOfflineSales succEnv [] (runPasses failEnvs s).1).1).2).countP
        (fun L => decide (b.billId ∈ L.committed)) = 0 := by
      rw [List.countP_eq_zero]
      intro L hL
      simp [(hlog3 L hL).1]
    simp [hc1, hc3, hmem]
  · intro L hL hLmem
    rcases List.mem_append.mp hL with hL1 | hL2
    · exact absurd hLmem (hlog1 L hL1).1
    · rcases List.mem_cons.mp hL2 with hL0 | hL3
      · rw [hL0]; exact htoast1
      · exact absurd hLmem (hlog3 L hL3).1

/-- The sync log (remote calls and pass notifications) depends only on the
snapshot, not on records saved concurrently during the pass. -/
theorem syncOfflineSales_log_const (env : RemoteEnv) (midSaves : List BillData)
    (s : SalesState) :
    (syncOfflineSales env midSaves s).2 = (syncOfflineSales env [] s).2 := by
  unfold syncOfflineSales
  by_cases hg : (s.isSyncing || s.user.isNone) = true
  · rw [if_pos hg, if_pos hg]
  · rw [if_neg hg, if_neg hg]
    by_cases he : (getOfflineSales s.storage).isEmpty = true
    · simp [he]
    · simp [he]

/-- C2: while a pass is in flight the in-flight guard makes any further
trigger return at once with no remote interaction, so a burst of two rapid
triggers performs exactly one pass, whose state is that of a single pass and
whose remote-commit calls hit each pending record at most once. -/
theorem no_double_sync_pass (env : RemoteEnv) (s : SalesState)
    (hs : s.isSyncing = false) (hu : s.user.isSome = true)
    (hav : s.storage.available = true)
    (hnd : (s.storage.buffer.map (fun x => x.billId)).Nodup) :
    (syncBurst env s).2.2 = SyncLog.empty
  ∧ (syncBurst env s).1 = (syncOfflineSales env [] s).1
  ∧ (syncBurst env s).2.1 = (syncOfflineSales env [] s).2
  ∧ (syncBurst env s).2.1.attempts.Nodup
  ∧ ∀ t : SalesState, t.isSyncing = true →
      syncOfflineSales env [] t = (t, SyncLog.empty) := by
  have hguard : ∀ t : SalesState, t.isSyncing = true →
      syncOfflineSales env [] t = (t, SyncLog.empty) := by
    intro t ht
    unfold syncOfflineSales
    simp [ht]
  obtain ⟨_, _, _, _, hatt, _, _, _, _⟩ := pass_spec env s hs hu hav
  refine ⟨?_, rfl, rfl, ?_, hguard⟩
  · show (syncOfflineSales env [] { s with isSyncing := true }).2 = SyncLog.empty
    rw [hguard _ rfl]
  · show (syncOfflineSales env [] s).2.attempts.Nodup
    rw [hatt]
    exact hnd

/-- C3: within one sync pass a record whose remote commit fails is neither
deleted nor counted as committed and stays in the buffer, while every snapshot
record is still attempted; concretely, for three pending records of which only
the second fails, the first and third are removed, the second remains, and the
pending count reported after the pass is 1. -/
theorem failed_commit_record_retained (env : RemoteEnv) (s : SalesState)
    (b : BillData)
    (hs : s.isSyncing = false) (hu : s.user.isSome = true)
    (hav : s.storage.available = true)
    (hb : b ∈ s.storage.buffer)
    (hfail : env.insertOk b.billId = false) :
    (b ∈ (syncOfflineSales env [] s).1.storage.buffer
     ∧ b.billId ∉ (syncOfflineSales env [] s).2.committed
     ∧ b.billId ∉ (syncOfflineSales env [] s).2.deleted
     ∧ (syncOfflineSales env [] s).2.attempts
         = s.storage.buffer.map (fun x => x.billId))
  ∧ ((syncOfflineSales envFail2 [] threePendingState).1.storage.buffer
         = [sampleBill "INV-2"]
     ∧ (syncOfflineSales envFail2 [] threePendingState).1.pendingSaleCount = 1
     ∧ (syncOfflineSales envFail2 [] threePendingState).2.attempts
         = ["INV-1", "INV-2", "INV-3"]
     ∧ (syncOfflineSales envFail2 [] threePendingState).2.deleted
         = ["INV-1", "INV-3"]) := by
  obtain ⟨_, _, _, _, hatt, _, _, _, _⟩ := pass_spec env s hs hu hav
  obtain ⟨h1, h2, h3⟩ := pass_failed_mem env s b hs hu hav hb hfail
  exact ⟨⟨h1, h2, h3, hatt⟩, by decide⟩

/-- C4: a sync pass takes its snapshot once at pass start and attempts the
remote commits strictly sequentially in the buffer's enumeration order of that
snapshot; records saved after the snapshot (during the pass) are not attempted
in that pass; and after any prefix of the loop, the buffer already excludes
exactly the successfully committed prefix records, so partial progress
persists record by record. -/
theorem sync_snapshot_sequential (env : RemoteEnv) (midSaves : List BillData)
    (s : SalesState)
    (hs : s.isSyncing = false) (hu : s.user.isSome = true)
    (hav : s.storage.available = true) :
    (syncOfflineSales env midSaves s).2.attempts
      = (getOfflineSales s.storage).map (fun b => b.billId)
  ∧ (∀ m : BillData,
      m.billId ∉ (getOfflineSales s.storage).map (fun b => b.billId) →
      m.billId ∉ (syncOfflineSales env midSaves s).2.attempts)
  ∧ ∀ k : Nat,
      (((getOfflineSales s.storage).take k).foldl (syncStep env)
          (initLoopState s.storage)).storage.buffer
        = purge (successIds env ((getOfflineSales s.storage).take k))
            s.storage.buffer := by
  obtain ⟨_, _, _, _, hatt, _, _, _, _⟩ := pass_spec env s hs hu hav
  have hget : getOfflineSales s.storage = s.storage.buffer := by
    unfold getOfflineSales
    rw [hav]
    simp
  have hlog := syncOfflineSales_log_const env midSaves s
  have hatt2 : (syncOfflineSales env midSaves s).2.attempts
      = (getOfflineSales s.storage).map (fun b => b.billId) := by
    rw [hlog, hatt, hget]
  refine ⟨hatt2, ?_, ?_⟩
  · intro m hm
    rw [hatt2]
    exact hm
  · intro k
    rw [foldl_syncStep_eq]
    simp only [initLoopState]
    unfold purgeStorage
    rw [hav]
    simp [hget]

/-- C5: the remote commit throws exactly when the sales-row insert fails; when
the insert succeeds a stock decrement is attempted for every line item and
each failing decrement only logs a warning — it neither fails the commit
(success depends only on the insert oracle) nor prevents the sync pass from
deleting the record from the buffer. -/
theorem remote_commit_failure_contract (env : RemoteEnv) (s : SalesState)
    (b : BillData)
    (hs : s.isSyncing = false) (hu : s.user.isSome = true)
    (hav : s.storage.available = true)
    (hb : b ∈ s.storage.buffer)
    (hnd : (s.storage.buffer.map (fun x => x.billId)).Nodup)
    (hins : env.insertOk b.billId = true) :
    (∀ (e : RemoteEnv) (x : BillData),
        (processSale e x).success = e.insertOk x.billId)
  ∧ (processSale env b).attemptedDecrements = b.items.map (fun it => it.id)
  ∧ (processSale env b).warnings
      = (b.items.filter (fun it => !env.decrementOk b.billId it.id)).map
          (fun it => it.item_name)
  ∧ b.billId ∈ (syncOfflineSales env [] s).2.deleted
  ∧ b.billId ∉ (syncOfflineSales env [] s).1.storage.buffer.map
      (fun x => x.billId) := by
  obtain ⟨hcnt, hdcnt, habs, _⟩ := pass_success env s b hs hu hav hb hnd hins
  refine ⟨processSale_success, ?_, ?_, ?_, habs⟩
  · unfold processSale
    rw [hins]
    simp
  · unfold processSale
    rw [hins]
    simp
  · rw [← List.count_pos_iff, hdcnt]
    exact Nat.one_pos

/-- C6: when a direct online checkout's remote commit fails, the failure is
surfaced as a destructive toast, the success dialog ends closed (the sale is
not presented as placed), no error escapes, and the cart, customer, notes and
the assigned billId are left untouched so the same sale can be retried. -/
theorem online_checkout_failure_preserves_cart (env : RemoteEnv)
    (s : SalesState) (pm : PaymentMethod) (now : Nat)
    (hoff : s.isOffline = false)
    (hfail : env.insertOk s.paymentBillId = false) :
    (completeSale env s pm now).state.cart = s.cart
  ∧ (completeSale env s pm now).state.customer = s.customer
  ∧ (completeSale env s pm now).state.notes = s.notes
  ∧ (completeSale env s pm now).state.paymentBillId = s.paymentBillId
  ∧ (completeSale env s pm now).state.storage = s.storage
  ∧ (completeSale env s pm now).state.dialogs.success = false
  ∧ (completeSale env s pm now).state.toasts
      = s.toasts ++ [Toast.transactionFailed]
  ∧ (completeSale env s pm now).unhandledError = none := by
  have hbid : (mkBillData s pm now).billId = s.paymentBillId := rfl
  unfold completeSale
  simp [hoff, processSale_success, hbid, hfail]

/-- C7 counterexample: concrete offline checkout whose durable save fails
(storage unavailable).  `completeSale` has already opened the success dialog
and set the completed bill before the save; the offline branch catches
nothing, so the rejection escapes, no toast is raised, the pending count stays
at 0 and the success dialog stays open — the sale is presented as placed and
the failure is not surfaced, contrary to the claim. -/
theorem offline_save_failure_cex :
    (completeSale envAllOk brokenStorageState PaymentMethod.cash 2000).state.dialogs.success
      = true
  ∧ (completeSale envAllOk brokenStorageState PaymentMethod.cash 2000).state.toasts = []
  ∧ (completeSale envAllOk brokenStorageState PaymentMethod.cash 2000).state.pendingSaleCount
      = 0
  ∧ (completeSale envAllOk brokenStorageState PaymentMethod.cash 2000).unhandledError
      = some "storage unavailable" := by
  decide

/-- C7 amended: when the durable save of an offline checkout fails, the
rejection escapes `completeSale` uncaught; no toast is raised, the buffer and
pending count are unchanged, and the success dialog — opened before the save —
stays open, so the sale is presented as placed even though the record was not
persisted; the uncaught error is the only trace of the failure. -/
theorem offline_save_failure_unhandled (env : RemoteEnv) (s : SalesState)
    (pm : PaymentMethod) (now : Nat)
    (hoff : s.isOffline = true) (hun : s.storage.available = false) :
    (completeSale env s pm now).unhandledError = some "storage unavailable"
  ∧ (completeSale env s pm now).state.dialogs.success = true
  ∧ (completeSale env s pm now).state.toasts = s.toasts
  ∧ (completeSale env s pm now).state.storage = s.storage
  ∧ (completeSale env s pm now).state.pendingSaleCount = s.pendingSaleCount
  ∧ (completeSale env s pm now).state.completedBill = some (mkBillData s pm now) := by
  unfold completeSale saveSaleOffline
  simp [hoff, hun]

/-- C10: a sync trigger while no user is authenticated is a complete no-op:
the state (including the in-flight flag and the pending count) is returned
unchanged and the log is empty — no remote call is made. -/
theorem sync_noop_without_user (env : RemoteEnv) (s : SalesState)
    (hu : s.user = none) :
    syncOfflineSales env [] s = (s, SyncLog.empty) := by
  unfold syncOfflineSales
  simp [hu]

/-! ### Decimal rendering of the clock is injective -/

theorem digitChar_val : ∀ r : Nat, r < 10 → (Nat.digitChar r).toNat - 48 = r := by
  decide

theorem toDigitsCore_succ (f n : Nat) (ds : List Char) :
    Nat.toDigitsCore 10 (f + 1) n ds =
      if n / 10 = 0 then Nat.digitChar (n % 10) :: ds
      else Nat.toDigitsCore 10 f (n / 10) (Nat.digitChar (n % 10) :: ds) := rfl

theorem foldl_toDigitsCore :
    ∀ (f n : Nat) (ds : List Char), n < f →
      (Nat.toDigitsCore 10 f n ds).foldl (fun acc c => 10 * acc + (c.toNat - 48)) 0
        = ds.foldl (fun acc c => 10 * acc + (c.toNat - 48)) n := by
  intro f
  induction f with
  | zero => intro n ds h; exact absurd h (Nat.not_lt_zero n)
  | succ f ih =>
      intro n ds h
      rw [toDigitsCore_succ]
      have hm : n % 10 < 10 := Nat.mod_lt _ (by norm_num)
      by_cases h0 : n / 10 = 0
      · rw [if_pos h0]
        simp only [List.foldl_cons]
        rw [digitChar_val _ hm]
        have he : 10 * 0 + n % 10 = n := by omega
        rw [he]
      · rw [if_neg h0]
        have hlt : n / 10 < f := by
          have h1 : 0 < n := by
            rcases Nat.eq_zero_or_pos n with h2 | h2
            · exact absurd (by simp [h2]) h0
            · exact h2
          have := Nat.div_lt_self h1 (by norm_num : 1 < 10)
          omega
        rw [ih (n / 10) (Nat.digitChar (n % 10) :: ds) hlt]
        simp only [List.foldl_cons]
        rw [digitChar_val _ hm]
        have he : 10 * (n / 10) + n % 10 = n := by omega
        rw [he]

theorem decodeDigits_toDigits (n : Nat) : decodeDigits (Nat.toDigits 10 n) = n := by
  unfold decodeDigits Nat.toDigits
  rw [foldl_toDigitsCore (n + 1) n [] (Nat.lt_succ_self n)]
  rfl

theorem mkBillId_injective (m n : Nat) (h : mkBillId m = mkBillId n) : m = n := by
  unfold mkBillId at h
  have hd := congrArg String.data h
  simp only [String.data_append] at hd
  have h2 : Nat.toDigits 10 m = Nat.toDigits 10 n := List.append_cancel_left hd
  calc m = decodeDigits (Nat.toDigits 10 m) := (decodeDigits_toDigits m).symm
    _ = decodeDigits (Nat.toDigits 10 n) := by rw [h2]
    _ = n := decodeDigits_toDigits n

/-- C9 counterexample: two distinct checkouts (different cart and customer)
whose `proceedToPayment` observes the same millisecond clock reading are both
admitted to payment and are assigned the same billId — so distinct checkouts
do not always receive distinct billIds. -/
theorem billId_collision_cex :
    (proceedToPayment baseState 99).paymentBillId
      = (proceedToPayment otherCheckoutState 99).paymentBillId
  ∧ baseState ≠ otherCheckoutState
  ∧ (proceedToPayment baseState 99).dialogs.payment = true
  ∧ (proceedToPayment otherCheckoutState 99).dialogs.payment = true := by
  decide

/-- C9 amended: the billId is client-generated at transaction creation time
(`proceedToPayment` renders the clock as `INV-` plus its decimal digits,
before any commit attempt) and every retry of the transaction — a later
`completeSale` with any payment method at any later time — reuses that same
billId; two checkouts receive distinct billIds exactly when their creation
clock readings differ, so checkouts created in the same millisecond collide. -/
theorem billId_assigned_at_creation (s : SalesState) (pm pm2 : PaymentMethod)
    (now now2 now3 : Nat)
    (hc : s.cart.isEmpty = false) (hp : s.customer.phone ≠ "") :
    (proceedToPayment s now).paymentBillId = mkBillId now
  ∧ (mkBillData (proceedToPayment s now) pm now2).billId = mkBillId now
  ∧ (mkBillData (proceedToPayment s now) pm now2).billId
      = (mkBillData (proceedToPayment s now) pm2 now3).billId
  ∧ ∀ m n : Nat, mkBillId m = mkBillId n → m = n := by
  have h1 : (proceedToPayment s now).paymentBillId = mkBillId now := by
    unfold proceedToPayment
    simp [hc, hp]
  exact ⟨h1, h1, rfl, mkBillId_injective⟩

theorem bufferSave_fresh (bill : BillData) (buf : Buffer)
    (h : bill.billId ∉ buf.map (fun b => b.billId)) :
    bufferSave bill buf = buf ++ [bill] := by
  unfold bufferSave
  have hany : buf.any (fun b => b.billId = bill.billId) = false := by
    rw [List.any_eq_false]
    intro b hb
    simp only [decide_eq_true_eq]
    intro heq
    exact h (List.mem_map.mpr ⟨b, hb, heq⟩)
  simp [hany]

theorem applyMidSaves_fresh (ms : List BillData) :
    ∀ buf : Buffer,
      (ms.map (fun b => b.billId)).Nodup →
      (∀ m ∈ ms, m.billId ∉ buf.map (fun b => b.billId)) →
      applyMidSaves { available := true, buffer := buf } ms
        = { available := true, buffer := buf ++ ms } := by
  induction ms with
  | nil =>
      intro buf _ _
      simp [applyMidSaves]
  | cons m rest ih =>
      intro buf hnd hfresh
      have hsave : saveSaleOffline { available := true, buffer := buf } m
          = Except.ok { available := true, buffer := buf ++ [m] } := by
        unfold saveSaleOffline
        rw [bufferSave_fresh m buf (hfresh m (List.mem_cons_self m rest))]
        rfl
      have hstep : applyMidSaves { available := true, buffer := buf } (m :: rest)
          = applyMidSaves { available := true, buffer := buf ++ [m] } rest := by
        unfold applyMidSaves
        simp only [List.foldl_cons, hsave]
      rw [hstep]
      have hnd2 : (rest.map (fun b => b.billId)).Nodup :=
        (List.nodup_cons.mp hnd).2
      have hhead : m.billId ∉ rest.map (fun b => b.billId) :=
        (List.nodup_cons.mp hnd).1
      have hfresh2 : ∀ m2 ∈ rest, m2.billId ∉ (buf ++ [m]).map (fun b => b.billId) := by
        intro m2 hm2
        rw [List.map_append, List.mem_append]
        rintro (hin | hin)
        · exact hfresh m2 (List.mem_cons_of_mem m hm2) hin
        · simp only [List.map_cons, List.map_nil, List.mem_singleton] at hin
          exact hhead (hin ▸ List.mem_map.mpr ⟨m2, hm2, rfl⟩)
      rw [ih (buf ++ [m]) hnd2 hfresh2]
      simp

/-- C8: after a pass over a non-empty snapshot the pending count equals the
length of the re-queried buffer contents, and that buffer consists of the
snapshot survivors followed by every record saved offline mid-pass: the count
reflects mid-pass saves, not interior bookkeeping over the snapshot. -/
theorem pending_count_requeried (env : RemoteEnv) (midSaves : List BillData)
    (s : SalesState)
    (hs : s.isSyncing = false) (hu : s.user.isSome = true)
    (hav : s.storage.available = true)
    (hne : s.storage.buffer.isEmpty = false)
    (hnd : (midSaves.map (fun b => b.billId)).Nodup)
    (hfresh : ∀ m ∈ midSaves, m.billId ∉ s.storage.buffer.map (fun b => b.billId)) :
    (syncOfflineSales env midSaves s).1.pendingSaleCount
      = (getOfflineSales (syncOfflineSales env midSaves s).1.storage).length
  ∧ (syncOfflineSales env midSaves s).1.storage.buffer
      = purge (successIds env s.storage.buffer) s.storage.buffer ++ midSaves
  ∧ ∀ m ∈ midSaves, m ∈ (syncOfflineSales env midSaves s).1.storage.buffer := by
  obtain ⟨u, hu2⟩ := Option.isSome_iff_exists.mp hu
  have hget : getOfflineSales s.storage = s.storage.buffer := by
    unfold getOfflineSales
    rw [hav]
    simp
  have hfresh2 : ∀ m ∈ midSaves,
      m.billId ∉ (purge (successIds env s.storage.buffer) s.storage.buffer).map
        (fun b => b.billId) := by
    intro m hm hin
    exact hfresh m hm ((map_billId_purge_sublist _ _).subset hin)
  have happly : applyMidSaves
      { available := true, buffer := purge (successIds env s.storage.buffer) s.storage.buffer }
      midSaves
      = { available := true,
          buffer := purge (successIds env s.storage.buffer) s.storage.buffer ++ midSaves } :=
    applyMidSaves_fresh midSaves _ hnd hfresh2
  have hmain : (syncOfflineSales env midSaves s).1.storage
      = { available := true,
          buffer := purge (successIds env s.storage.buffer) s.storage.buffer ++ midSaves }
    ∧ (syncOfflineSales env midSaves s).1.pendingSaleCount
      = (purge (successIds env s.storage.buffer) s.storage.buffer ++ midSaves).length := by
    unfold syncOfflineSales
    simp only [hs, hu2, Option.isNone_some, Bool.or_self, Bool.false_eq_true,
      if_false, hget, hne, Bool.false_eq_true, if_false]
    rw [foldl_syncStep_eq]
    simp only [initLoopState, purgeStorage, hav, if_true]
    refine ⟨happly, ?_⟩
    rw [happly]
    rfl
  obtain ⟨hst, hcnt⟩ := hmain
  refine ⟨?_, ?_, ?_⟩
  · rw [hst, hcnt]
    rfl
  · rw [hst]
  · intro m hm
    rw [hst]
    exact List.mem_append.mpr (Or.inr hm)

/-! ### Witnesses: the claim theorems applied at concrete inputs -/

/-- Witness for C1: one failing pass followed by one successful pass over the
three-record buffer, tracking the record `INV-1`. -/
theorem offline_sale_at_least_once_witness :
    ((runPasses [envAllFail, envAllOk] threePendingState).2.map
        (fun L => L.committed.count (sampleBill "INV-1").billId)).sum = 1
  ∧ ((runPasses [envAllFail, envAllOk] threePendingState).2.map
        (fun L => L.deleted.count (sampleBill "INV-1").billId)).sum = 1
  ∧ (sampleBill "INV-1").billId ∉
      (runPasses [envAllFail, envAllOk] threePendingState).1.storage.buffer.map
        (fun x => x.billId)
  ∧ (runPasses [envAllFail, envAllOk] threePendingState).2.countP
        (fun L => decide ((sampleBill "INV-1").billId ∈ L.committed)) = 1
  ∧ ∀ L ∈ (runPasses [envAllFail, envAllOk] threePendingState).2,
      (sampleBill "INV-1").billId ∈ L.committed →
        L.toasts.countP Toast.isComplete = 1 :=
  offline_sale_at_least_once [envAllFail] [] envAllOk threePendingState
    (sampleBill "INV-1") rfl rfl rfl (by decide) (by decide)
    (by intro e he
        simp only [List.mem_singleton] at he
        subst he
        rfl)
    rfl

/-- Witness for C2: a trigger burst over the three-record buffer. -/
theorem no_double_sync_pass_witness :
    (syncBurst envAllOk threePendingState).2.2 = SyncLog.empty
  ∧ (syncBurst envAllOk threePendingState).1
      = (syncOfflineSales envAllOk [] threePendingState).1
  ∧ (syncBurst envAllOk threePendingState).2.1
      = (syncOfflineSales envAllOk [] threePendingState).2
  ∧ (syncBurst envAllOk threePendingState).2.1.attempts.Nodup
  ∧ ∀ t : SalesState, t.isSyncing = true →
      syncOfflineSales envAllOk [] t = (t, SyncLog.empty) :=
  no_double_sync_pass envAllOk threePendingState rfl rfl rfl (by decide)

/-- Witness for C3: a pass in which every insert fails, tracking `INV-1`. -/
theorem failed_commit_record_retained_witness :
    ((sampleBill "INV-1") ∈
        (syncOfflineSales envAllFail [] threePendingState).1.storage.buffer
     ∧ (sampleBill "INV-1").billId ∉
         (syncOfflineSales envAllFail [] threePendingState).2.committed
     ∧ (sampleBill "INV-1").billId ∉
         (syncOfflineSales envAllFail [] threePendingState).2.deleted
     ∧ (syncOfflineSales envAllFail [] threePendingState).2.attempts
         = threePendingState.storage.buffer.map (fun x => x.billId))
  ∧ ((syncOfflineSales envFail2 [] threePendingState).1.storage.buffer
         = [sampleBill "INV-2"]
     ∧ (syncOfflineSales envFail2 [] threePendingState).1.pendingSaleCount = 1
     ∧ (syncOfflineSales envFail2 [] threePendingState).2.attempts
         = ["INV-1", "INV-2", "INV-3"]
     ∧ (syncOfflineSales envFail2 [] threePendingState).2.deleted
         = ["INV-1", "INV-3"]) :=
  failed_commit_record_retained envAllFail threePendingState (sampleBill "INV-1")
    rfl rfl rfl (by decide) rfl

/-- Witness for C4: a pass over the three-record snapshot with one record
saved mid-pass. -/
theorem sync_snapshot_sequential_witness :
    (syncOfflineSales envFail2 [sampleBill "INV-9"] threePendingState).2.attempts
      = (getOfflineSales threePendingState.storage).map (fun b => b.billId)
  ∧ (∀ m : BillData,
      m.billId ∉ (getOfflineSales threePendingState.storage).map (fun b => b.billId) →
      m.billId ∉ (syncOfflineSales envFail2 [sampleBill "INV-9"] threePendingState).2.attempts)
  ∧ ∀ k : Nat,
      (((getOfflineSales threePendingState.storage).take k).foldl (syncStep envFail2)
          (initLoopState threePendingState.storage)).storage.buffer
        = purge (successIds envFail2 ((getOfflineSales threePendingState.storage).take k))
            threePendingState.storage.buffer :=
  sync_snapshot_sequential envFail2 [sampleBill "INV-9"] threePendingState rfl rfl rfl

/-- Witness for C5: the record `INV-1` under the environment that fails only
the insert of `INV-2`. -/
theorem remote_commit_failure_contract_witness :
    (∀ (e : RemoteEnv) (x : BillData),
        (processSale e x).success = e.insertOk x.billId)
  ∧ (processSale envFail2 (sampleBill "INV-1")).attemptedDecrements
      = (sampleBill "INV-1").items.map (fun it => it.id)
  ∧ (processSale envFail2 (sampleBill "INV-1")).warnings
      = ((sampleBill "INV-1").items.filter
          (fun it => !envFail2.decrementOk (sampleBill "INV-1").billId it.id)).map
          (fun it => it.item_name)
  ∧ (sampleBill "INV-1").billId ∈
      (syncOfflineSales envFail2 [] threePendingState).2.deleted
  ∧ (sampleBill "INV-1").billId ∉
      (syncOfflineSales envFail2 [] threePendingState).1.storage.buffer.map
        (fun x => x.billId) :=
  remote_commit_failure_contract envFail2 threePendingState (sampleBill "INV-1")
    rfl rfl rfl (by decide) (by decide) (by decide)

/-- Witness for C6: an online checkout against a backend that rejects every
insert. -/
theorem online_checkout_failure_preserves_cart_witness :
    (completeSale envAllFail baseState PaymentMethod.cash 5).state.cart = baseState.cart
  ∧ (completeSale envAllFail baseState PaymentMethod.cash 5).state.customer
      = baseState.customer
  ∧ (completeSale envAllFail baseState PaymentMethod.cash 5).state.notes = baseState.notes
  ∧ (completeSale envAllFail baseState PaymentMethod.cash 5).state.paymentBillId
      = baseState.paymentBillId
  ∧ (completeSale envAllFail baseState PaymentMethod.cash 5).state.storage
      = baseState.storage
  ∧ (completeSale envAllFail baseState PaymentMethod.cash 5).state.dialogs.success = false
  ∧ (completeSale envAllFail baseState PaymentMethod.cash 5).state.toasts
      = baseState.toasts ++ [Toast.transactionFailed]
  ∧ (completeSale envAllFail baseState PaymentMethod.cash 5).unhandledError = none :=
  online_checkout_failure_preserves_cart envAllFail baseState PaymentMethod.cash 5
    rfl rfl

/-- Witness for C7 (amended): the concrete broken-storage offline checkout. -/
theorem offline_save_failure_unhandled_witness :
    (completeSale envAllOk brokenStorageState PaymentMethod.cash 2000).unhandledError
      = some "storage unavailable"
  ∧ (completeSale envAllOk brokenStorageState PaymentMethod.cash 2000).state.dialogs.success
      = true
  ∧ (completeSale envAllOk brokenStorageState PaymentMethod.cash 2000).state.toasts
      = brokenStorageState.toasts
  ∧ (completeSale envAllOk brokenStorageState PaymentMethod.cash 2000).state.storage
      = brokenStorageState.storage
  ∧ (completeSale envAllOk brokenStorageState PaymentMethod.cash 2000).state.pendingSaleCount
      = brokenStorageState.pendingSaleCount
  ∧ (completeSale envAllOk brokenStorageState PaymentMethod.cash 2000).state.completedBill
      = some (mkBillData brokenStorageState PaymentMethod.cash 2000) :=
  offline_save_failure_unhandled envAllOk brokenStorageState PaymentMethod.cash 2000
    rfl rfl

/-- Witness for C8: a pass over the three-record snapshot with a fresh record
`INV-9` saved mid-pass. -/
theorem pending_count_requeried_witness :
    (syncOfflineSales envFail2 [sampleBill "INV-9"] threePendingState).1.pendingSaleCount
      = (getOfflineSales
          (syncOfflineSales envFail2 [sampleBill "INV-9"] threePendingState).1.storage).length
  ∧ (syncOfflineSales envFail2 [sampleBill "INV-9"] threePendingState).1.storage.buffer
      = purge (successIds envFail2 threePendingState.storage.buffer)
          threePendingState.storage.buffer ++ [sampleBill "INV-9"]
  ∧ ∀ m ∈ [sampleBill "INV-9"],
      m ∈ (syncOfflineSales envFail2 [sampleBill "INV-9"] threePendingState).1.storage.buffer :=
  pending_count_requeried envFail2 [sampleBill "INV-9"] threePendingState
    rfl rfl rfl rfl (by decide) (by decide)

/-- Witness for C9 (amended): a checkout created at clock reading 99, retried
with both payment methods at later clock readings. -/
theorem billId_assigned_at_creation_witness :
    (proceedToPayment baseState 99).paymentBillId = mkBillId 99
  ∧ (mkBillData (proceedToPayment baseState 99) PaymentMethod.cash 100).billId
      = mkBillId 99
  ∧ (mkBillData (proceedToPayment baseState 99) PaymentMethod.cash 100).billId
      = (mkBillData (proceedToPayment baseState 99) PaymentMethod.online 101).billId
  ∧ ∀ m n : Nat, mkBillId m = mkBillId n → m = n :=
  billId_assigned_at_creation baseState PaymentMethod.cash PaymentMethod.online
    99 100 101 rfl (by decide)

/-- Witness for C10: a sync trigger in a state with no authenticated user. -/
theorem sync_noop_without_user_witness :
    syncOfflineSales envAllOk [] { baseState with user := none }
      = ({ baseState with user := none }, SyncLog.empty) :=
  sync_noop_without_user envAllOk { baseState with user := none } rfl

end SuperMarket
